import Mathlib

/-!
# Verification of the travel-booking turn pipeline

Shallow embedding of `src/main.py`: the turn-processing pipeline of the
travel-booking assistant.  The pieces implemented in the repository —
prompt serialization, the guardrail callback bodies, the three return
dictionaries of `run_travel_agent`, and the Streamlit submit handler —
are translated directly from the source.  The orchestration performed by
the external `agents` runtime (`Runner.run` running the input guardrail,
the responder model and the output guardrail, raising the two tripwire
exceptions) is not part of the repository; it is modelled from the
specification's §4.3 state machine, as noted on the definitions below.

External model calls are non-deterministic and fallible, so they are
abstracted as an environment `ModelEnv` of functions from prompt strings
to `Except ProviderError` results; every theorem quantifies over it.
-/

namespace TravelAgent

/-- A chat-history entry, the dictionaries `{"role": ..., "content": ...}`
stored in `st.session_state.messages` (src/main.py lines 206, 212-216). -/
structure Msg where
  role : String
  content : String
deriving DecidableEq, Repr

/-- `IllegalAndIrrelevant` pydantic model (src/main.py lines 21-23): the
structured output schema of the input-guardrail classifier. -/
structure IllegalAndIrrelevant where
  is_request_irrelevant_illegal : Bool
  reasoning : String
deriving DecidableEq, Repr

/-- `ControlBookingCriteria` pydantic model (src/main.py lines 25-27): the
structured output schema of the output-guardrail classifier. -/
structure ControlBookingCriteria where
  is_response_violates : Bool
  reasoning : String
deriving DecidableEq, Repr

/-- `MessageOutput` pydantic model (src/main.py lines 29-30): the structured
output schema of the responder agent. -/
structure MessageOutput where
  response : String
deriving DecidableEq, Repr

/-- `UserInfo` dataclass (src/main.py lines 32-38).  The Python `budget`
field is a float; it is represented as a rational since the pipeline never
computes with it, it is only carried as context. -/
structure UserInfo where
  name : String
  age : Int
  departure_city : String
  budget : Rat
  travel_history : List String
deriving DecidableEq, Repr

/-- The `user_info` value constructed inside `run_travel_agent`
(src/main.py lines 127-133). -/
def user_info : UserInfo :=
  { name := "Mark Willson"
    age := 45
    departure_city := "Tokyo"
    budget := 180.4
    travel_history := ["China", "UAE", "Iran", "India"] }

/-- The failure modes of an external model call, per spec §7:
malformed structured reply, network failure, authentication failure,
rate limit.  None is handled by the pipeline. -/
inductive ProviderError
  | malformedReply
  | networkFailure
  | authFailure
  | rateLimit
deriving DecidableEq, Repr

/-- The three external model-backed components, abstracted as functions of
the text they are given (plus the read-only `UserInfo` context, which none
of the repository's code ever varies, so it is left implicit).  `inputGuard`
is the `illegal_and_irrelevant_input_guardrail` agent (src/main.py lines
55-67), `responder` is the core model call of
`Travel_Booking_Assistant_Agent` (lines 113-124), and `outputGuard` is the
`control_booking_output_guardrail` agent (lines 70-82). -/
structure ModelEnv where
  inputGuard : String → Except ProviderError IllegalAndIrrelevant
  responder : String → Except ProviderError MessageOutput
  outputGuard : String → Except ProviderError ControlBookingCriteria

/-- `GuardrailFunctionOutput` of the agents library, restricted to the two
pieces the pipeline reads: the tripwire flag and the classifier's
reasoning (carried in `output_info`). -/
structure GuardrailFunctionOutput where
  tripwire_triggered : Bool
  output_info_reasoning : String
deriving DecidableEq, Repr

/-- The `illegal_irrelevant` input-guardrail function (src/main.py lines
85-95): run the input-guardrail classifier on the input text and report
`tripwire_triggered := is_request_irrelevant_illegal`. -/
def illegal_irrelevant (env : ModelEnv) (user_input : String) :
    Except ProviderError GuardrailFunctionOutput :=
  (env.inputGuard user_input).map fun v =>
    ⟨v.is_request_irrelevant_illegal, v.reasoning⟩

/-- The `check_booking` output-guardrail function (src/main.py lines
99-109): run the output-guardrail classifier on the candidate reply's
`response` field and report `tripwire_triggered := is_response_violates`. -/
def check_booking (env : ModelEnv) (output : MessageOutput) :
    Except ProviderError GuardrailFunctionOutput :=
  (env.outputGuard output.response).map fun v =>
    ⟨v.is_response_violates, v.reasoning⟩

/-- How one `Runner.run` call on the responder agent can end: with the
final structured output, or with one of the two tripwire exceptions, or
with an unhandled provider error. -/
inductive RunError
  | inputTripwire
  | outputTripwire
  | provider (e : ProviderError)
deriving DecidableEq, Repr

/-- How many times each model-backed component was invoked during one
pipeline run (instrumentation used to state the short-circuit claims). -/
structure CallCounts where
  inputGuardrailCalls : Nat
  responderCalls : Nat
  outputGuardrailCalls : Nat
deriving DecidableEq, Repr

/-- Modelled from the spec: the `Runner.run` orchestration of the external
`agents` runtime (invoked at src/main.py lines 145-149 with the guardrails
attached at lines 121-122), which is not part of this repository.  Per
spec §4.3: run the input guardrail on the serialized transcript; if its
tripwire is triggered, abort with `InputGuardrailTripwireTriggered` before
any responder call; otherwise invoke the responder; then run the output
guardrail on the responder's reply; if its tripwire is triggered, abort
with `OutputGuardrailTripwireTriggered`; otherwise deliver the reply.  Any
provider error propagates (spec §4.1, §7).  The result is paired with the
number of calls made to each component. -/
def runnerRun (env : ModelEnv) (input : String) :
    Except RunError MessageOutput × CallCounts :=
  match illegal_irrelevant env input with
  | .error e => (.error (.provider e), ⟨1, 0, 0⟩)
  | .ok g =>
    if g.tripwire_triggered then
      (.error .inputTripwire, ⟨1, 0, 0⟩)
    else
      match env.responder input with
      | .error e => (.error (.provider e), ⟨1, 1, 0⟩)
      | .ok out =>
        match check_booking env out with
        | .error e => (.error (.provider e), ⟨1, 1, 1⟩)
        | .ok g2 =>
          if g2.tripwire_triggered then
            (.error .outputTripwire, ⟨1, 1, 1⟩)
          else
            (.ok out, ⟨1, 1, 1⟩)

/-- The set of characters Python's `str.strip()` removes (ASCII whitespace;
the repository's strings are ASCII). -/
def isPySpace (c : Char) : Bool :=
  c = ' ' || c = '\t' || c = '\n' || c = '\r' || c = Char.ofNat 11 || c = Char.ofNat 12

/-- Remove trailing whitespace characters. -/
def pyRStrip (cs : List Char) : List Char :=
  (cs.reverse.dropWhile isPySpace).reverse

/-- Python's `str.strip()`: remove leading and trailing whitespace. -/
def pystrip (s : String) : String :=
  ⟨(pyRStrip s.data).dropWhile isPySpace⟩

/-- The role label used when serializing one history entry
(src/main.py line 139): `"User"` when the stored role is `"user"`,
otherwise `"Agent"`. -/
def roleLabel (m : Msg) : String :=
  if m.role = "user" then "User" else "Agent"

/-- One serialized line of the conversation, without its newline
(src/main.py line 140 builds `f"{role}: {msg['content']}\n"`). -/
def turnLine (m : Msg) : String :=
  roleLabel m ++ ": " ++ m.content

/-- The conversation-serialization loop of `run_travel_agent`
(src/main.py lines 137-140): start from `""` and append
`f"{role}: {content}\n"` for each history entry in order. -/
def buildConversation (chat_history : List Msg) : String :=
  chat_history.foldl (fun conversation msg => conversation ++ turnLine msg ++ "\n") ""

/-- The prompt actually passed to `Runner.run` (src/main.py line 147):
the serialized conversation with `.strip()` applied. -/
def promptOf (chat_history : List Msg) : String :=
  pystrip (buildConversation chat_history)

/-- The three-variant outcome dictionary returned by `run_travel_agent`
(src/main.py lines 150, 154, 158). -/
inductive Outcome
  | success (response : String)
  | blockedInput (reason : String)
  | blockedOutput (reason : String)
deriving DecidableEq, Repr

/-- The `"status"` field of the returned dictionary. -/
def Outcome.status : Outcome → String
  | .success _ => "success"
  | .blockedInput _ => "blocked_input"
  | .blockedOutput _ => "blocked_output"

/-- The outcome is the `{"status": "success", ...}` variant. -/
def Outcome.isSuccess : Outcome → Bool
  | .success _ => true
  | _ => false

/-- The outcome is the `{"status": "blocked_input", ...}` variant. -/
def Outcome.isBlockedInput : Outcome → Bool
  | .blockedInput _ => true
  | _ => false

/-- The outcome is the `{"status": "blocked_output", ...}` variant. -/
def Outcome.isBlockedOutput : Outcome → Bool
  | .blockedOutput _ => true
  | _ => false

/-- The fixed reason string of the `blocked_input` return
(src/main.py line 154). -/
def blockedInputReason : String := "Illegal or irrelevant request."

/-- The fixed reason string of the `blocked_output` return
(src/main.py line 158). -/
def blockedOutputReason : String :=
  "Blocked for safety (medical/legal advice or missing cost)."

/-- `run_travel_agent` (src/main.py lines 41-158), instrumented with the
call counts of `runnerRun`: serialize the chat history, strip it, run the
responder agent with both guardrails attached, and map the three ways the
run can end into the three outcome dictionaries; a tripwire exception is
caught (lines 153-158), a provider error is not. -/
def run_travel_agentT (env : ModelEnv) (chat_history : List Msg) :
    Except ProviderError Outcome × CallCounts :=
  match runnerRun env (promptOf chat_history) with
  | (.ok out, c) => (.ok (.success out.response), c)
  | (.error .inputTripwire, c) => (.ok (.blockedInput blockedInputReason), c)
  | (.error .outputTripwire, c) => (.ok (.blockedOutput blockedOutputReason), c)
  | (.error (.provider e), c) => (.error e, c)

/-- `run_travel_agent` as the caller sees it: the returned dictionary, or
the uncaught provider error. -/
def run_travel_agent (env : ModelEnv) (chat_history : List Msg) :
    Except ProviderError Outcome :=
  (run_travel_agentT env chat_history).1

/-- The chat-history entry the submit handler appends for each outcome
(src/main.py lines 211-216): the response text on success, or the fixed
block notice with the returned reason. -/
def agentEntryFor : Outcome → Msg
  | .success r => ⟨"agent", r⟩
  | .blockedInput r => ⟨"agent", "Request Blocked: " ++ r⟩
  | .blockedOutput r => ⟨"agent", "Response Blocked: " ++ r⟩

/-- The submit handler (src/main.py lines 204-217), instrumented with the
number of pipeline invocations: if `user_input.strip()` is truthy
(non-empty), append the user message, run the pipeline on the grown
history, and append the resulting agent entry; a provider error escapes
after the user message was already appended.  Returns the new message
list, the escaped error if any, and how many times the pipeline ran. -/
def submitStepT (env : ModelEnv) (messages : List Msg) (user_input : String) :
    List Msg × Option ProviderError × Nat :=
  if pystrip user_input ≠ "" then
    let m1 := messages ++ [⟨"user", user_input⟩]
    match run_travel_agent env m1 with
    | .ok o => (m1 ++ [agentEntryFor o], none, 1)
    | .error e => (m1, some e, 1)
  else
    (messages, none, 0)

/-- The submit handler's observable effect: the new message list and the
escaped error if any. -/
def submitStep (env : ModelEnv) (messages : List Msg) (user_input : String) :
    List Msg × Option ProviderError :=
  ((submitStepT env messages user_input).1, (submitStepT env messages user_input).2.1)

/-- Concatenation of lines with a newline after each one: the shape the
serialization loop produces before stripping. -/
def linesConcat : List String → String
  | [] => ""
  | l :: ls => l ++ "\n" ++ linesConcat ls

/-- Lines joined by newlines (no trailing newline). -/
def joinLines : List String → String
  | [] => ""
  | [l] => l
  | l :: ls => l ++ "\n" ++ joinLines ls

/-- The prompt as claim C5 words it: one `"User: <content>"` or
`"Agent: <content>"` line per turn, in transcript order, joined by
newlines with the trailing newline trimmed.  Stated from the spec's
words, for comparison against `promptOf`, which is translated from the
source. -/
def specPromptC5 (chat_history : List Msg) : String :=
  joinLines (chat_history.map turnLine)

/-- The mutable Python objects visible to one `run_travel_agent` call: the
caller's `chat_history` list (aliasing `st.session_state.messages`) and
the `user_info` dataclass passed to every model call as context. -/
structure PipelineState where
  chat_history : List Msg
  user_info : UserInfo
deriving DecidableEq, Repr

/-- State-passing embedding of `run_travel_agent` (src/main.py lines
127-158) used for the frame property: the state holds the objects the
call could in principle mutate, and each translated statement returns the
state it leaves behind.  The body only reads `chat_history` (the
serialization loop, lines 138-140) and only constructs and passes
`user_info` (lines 127-133, 148); no statement of the function assigns to
an element of `chat_history` or a field of `user_info`, and the context
is read-only for the external runtime (spec §3), so every step threads
the state through unchanged. -/
def run_travel_agentS (env : ModelEnv) (s : PipelineState) :
    Except ProviderError Outcome × PipelineState :=
  match runnerRun env (promptOf s.chat_history) with
  | (.ok out, _) => (.ok (.success out.response), s)
  | (.error .inputTripwire, _) => (.ok (.blockedInput blockedInputReason), s)
  | (.error .outputTripwire, _) => (.ok (.blockedOutput blockedOutputReason), s)
  | (.error (.provider e), _) => (.error e, s)

/-- Any number of pipeline turns, each with its own model environment,
threading the state. -/
def runTurnsS (envs : List ModelEnv) (s : PipelineState) : PipelineState :=
  envs.foldl (fun st e => (run_travel_agentS e st).2) s

/-- A model environment in which no gate triggers and the responder
answers `"hello"`. -/
def envHappy : ModelEnv where
  inputGuard := fun _ => .ok ⟨false, "relevant request"⟩
  responder := fun _ => .ok ⟨"hello"⟩
  outputGuard := fun _ => .ok ⟨false, "no violation"⟩

/-- A model environment whose input gate always triggers, with a concrete
rationale. -/
def envPreTrip : ModelEnv where
  inputGuard := fun _ => .ok ⟨true, "asks for travel to a sanctioned destination"⟩
  responder := fun _ => .ok ⟨"should never be produced"⟩
  outputGuard := fun _ => .ok ⟨false, "no violation"⟩

/-- A model environment whose output gate always triggers, with a concrete
rationale. -/
def envPostTrip : ModelEnv where
  inputGuard := fun _ => .ok ⟨false, "relevant request"⟩
  responder := fun _ => .ok ⟨"Your booking is confirmed."⟩
  outputGuard := fun _ => .ok ⟨true, "confirms a booking without showing cost"⟩

/-- A model environment realizing the spec's happy-path example: no gate
triggers and the responder answers with the flight summary. -/
def envFlights : ModelEnv where
  inputGuard := fun _ => .ok ⟨false, "relevant request"⟩
  responder := fun _ => .ok ⟨"Flights from Tokyo to Seoul start at $120."⟩
  outputGuard := fun _ => .ok ⟨false, "no violation"⟩

/-- A model environment whose input-gate model call fails with a network
failure. -/
def envPreErr : ModelEnv where
  inputGuard := fun _ => .error .networkFailure
  responder := fun _ => .ok ⟨"unreached"⟩
  outputGuard := fun _ => .ok ⟨false, "no violation"⟩

/-- Case analysis on how one pipeline run ends, shared by several proofs:
the run returns one of the three outcome dictionaries (success carrying
the responder's reply, blocked-input with its fixed reason, blocked-output
with its fixed reason), or re-raises a provider error. -/
lemma run_travel_agent_run_cases (env : ModelEnv) (h : List Msg) :
    (∃ out : MessageOutput, (runnerRun env (promptOf h)).1 = .ok out ∧
      run_travel_agent env h = .ok (.success out.response)) ∨
    ((runnerRun env (promptOf h)).1 = .error .inputTripwire ∧
      run_travel_agent env h = .ok (.blockedInput blockedInputReason)) ∨
    ((runnerRun env (promptOf h)).1 = .error .outputTripwire ∧
      run_travel_agent env h = .ok (.blockedOutput blockedOutputReason)) ∨
    (∃ e, (runnerRun env (promptOf h)).1 = .error (.provider e) ∧
      run_travel_agent env h = .error e) := by
  rcases hE : runnerRun env (promptOf h) with ⟨res, c⟩
  rcases res with err | out
  · rcases err with _ | _ | e
    · exact Or.inr (Or.inl ⟨by simp [hE], by simp [run_travel_agent, run_travel_agentT, hE]⟩)
    · exact Or.inr (Or.inr (Or.inl
        ⟨by simp [hE], by simp [run_travel_agent, run_travel_agentT, hE]⟩))
    · exact Or.inr (Or.inr (Or.inr
        ⟨e, by simp [hE], by simp [run_travel_agent, run_travel_agentT, hE]⟩))
  · exact Or.inl ⟨out, by simp [hE], by simp [run_travel_agent, run_travel_agentT, hE]⟩

/-- C1: when `run_travel_agent` returns normally, the returned dictionary
is exactly one of the three outcome variants — success (status
`"success"` with a response string), blocked-input (status
`"blocked_input"` with a reason string), or blocked-output (status
`"blocked_output"` with a reason string) — and never more than one. -/
theorem run_travel_agent_exactly_one_outcome (env : ModelEnv) (h : List Msg)
    (o : Outcome) (hrun : run_travel_agent env h = Except.ok o) :
    (o.isSuccess = true ∧ o.isBlockedInput = false ∧ o.isBlockedOutput = false ∧
      o.status = "success" ∧ ∃ r, o = .success r) ∨
    (o.isSuccess = false ∧ o.isBlockedInput = true ∧ o.isBlockedOutput = false ∧
      o.status = "blocked_input" ∧ ∃ r, o = .blockedInput r) ∨
    (o.isSuccess = false ∧ o.isBlockedInput = false ∧ o.isBlockedOutput = true ∧
      o.status = "blocked_output" ∧ ∃ r, o = .blockedOutput r) := by
  cases o <;>
    simp [Outcome.isSuccess, Outcome.isBlockedInput, Outcome.isBlockedOutput, Outcome.status]

/-- Witness for C1 at a concrete run: the happy-path environment on the
one-message history yields the success outcome. -/
theorem run_travel_agent_exactly_one_outcome_witness :
    run_travel_agent envHappy [⟨"user", "hi"⟩] = Except.ok (.success "hello") ∧
    (((Outcome.success "hello").isSuccess = true ∧
      (Outcome.success "hello").isBlockedInput = false ∧
      (Outcome.success "hello").isBlockedOutput = false ∧
      (Outcome.success "hello").status = "success" ∧
      ∃ r, Outcome.success "hello" = .success r) ∨
    ((Outcome.success "hello").isSuccess = false ∧
      (Outcome.success "hello").isBlockedInput = true ∧
      (Outcome.success "hello").isBlockedOutput = false ∧
      (Outcome.success "hello").status = "blocked_input" ∧
      ∃ r, Outcome.success "hello" = .blockedInput r) ∨
    ((Outcome.success "hello").isSuccess = false ∧
      (Outcome.success "hello").isBlockedInput = false ∧
      (Outcome.success "hello").isBlockedOutput = true ∧
      (Outcome.success "hello").status = "blocked_output" ∧
      ∃ r, Outcome.success "hello" = .blockedOutput r)) := by
  have hrun : run_travel_agent envHappy [⟨"user", "hi"⟩] =
      Except.ok (.success "hello") := rfl
  exact ⟨hrun,
    run_travel_agent_exactly_one_outcome envHappy [⟨"user", "hi"⟩] (.success "hello") hrun⟩

/-- C2: whenever the input gate's verdict has its flag set, the run ends
as blocked-input and neither the responder nor the output gate is ever
invoked (their call counts are zero). -/
theorem pre_gate_short_circuit (env : ModelEnv) (h : List Msg)
    (v : IllegalAndIrrelevant) (hpre : env.inputGuard (promptOf h) = .ok v)
    (htrig : v.is_request_irrelevant_illegal = true) :
    run_travel_agent env h = .ok (.blockedInput blockedInputReason) ∧
    (run_travel_agentT env h).2.responderCalls = 0 ∧
    (run_travel_agentT env h).2.outputGuardrailCalls = 0 := by
  refine ⟨?_, ?_, ?_⟩ <;>
    simp [run_travel_agent, run_travel_agentT, runnerRun, illegal_irrelevant, Except.map, hpre, htrig]

/-- Witness for C2: the always-triggering input-gate environment on a
concrete one-message history. -/
theorem pre_gate_short_circuit_witness :
    envPreTrip.inputGuard (promptOf [⟨"user", "take me somewhere"⟩]) =
      .ok ⟨true, "asks for travel to a sanctioned destination"⟩ ∧
    (run_travel_agent envPreTrip [⟨"user", "take me somewhere"⟩] =
        .ok (.blockedInput blockedInputReason) ∧
      (run_travel_agentT envPreTrip [⟨"user", "take me somewhere"⟩]).2.responderCalls = 0 ∧
      (run_travel_agentT envPreTrip [⟨"user", "take me somewhere"⟩]).2.outputGuardrailCalls = 0) :=
  ⟨rfl, pre_gate_short_circuit envPreTrip [⟨"user", "take me somewhere"⟩]
    ⟨true, "asks for travel to a sanctioned destination"⟩ rfl rfl⟩

/-- C3: when the input gate does not trigger, the responder produces `T`,
and the output gate triggers on `T`, the run ends as blocked-output with
the fixed reason — a constant that does not depend on `T` — and the
outcome is identical whatever reply the responder produced, so `T` is
discarded and never surfaced. -/
theorem post_gate_suppression (env : ModelEnv) (h : List Msg)
    (T rpre rpost : String)
    (hpre : env.inputGuard (promptOf h) = .ok ⟨false, rpre⟩)
    (hresp : env.responder (promptOf h) = .ok ⟨T⟩)
    (hpost : env.outputGuard T = .ok ⟨true, rpost⟩) :
    run_travel_agent env h = .ok (.blockedOutput blockedOutputReason) ∧
    ∀ (env2 : ModelEnv) (T2 rpre2 rpost2 : String),
      env2.inputGuard (promptOf h) = .ok ⟨false, rpre2⟩ →
      env2.responder (promptOf h) = .ok ⟨T2⟩ →
      env2.outputGuard T2 = .ok ⟨true, rpost2⟩ →
      run_travel_agent env2 h = run_travel_agent env h := by
  have key : ∀ (e : ModelEnv) (T0 r1 r2 : String),
      e.inputGuard (promptOf h) = .ok ⟨false, r1⟩ →
      e.responder (promptOf h) = .ok ⟨T0⟩ →
      e.outputGuard T0 = .ok ⟨true, r2⟩ →
      run_travel_agent e h = .ok (.blockedOutput blockedOutputReason) := by
    intro e T0 r1 r2 h1 h2 h3
    simp [run_travel_agent, run_travel_agentT, runnerRun, illegal_irrelevant,
      check_booking, Except.map, h1, h2, h3]
  refine ⟨key env T rpre rpost hpre hresp hpost, ?_⟩
  intro env2 T2 rpre2 rpost2 h1 h2 h3
  rw [key env2 T2 rpre2 rpost2 h1 h2 h3, key env T rpre rpost hpre hresp hpost]

/-- Witness for C3: the always-triggering output-gate environment on a
concrete history; the suppressed reply is the booking confirmation. -/
theorem post_gate_suppression_witness :
    envPostTrip.inputGuard (promptOf [⟨"user", "book it"⟩]) = .ok ⟨false, "relevant request"⟩ ∧
    envPostTrip.responder (promptOf [⟨"user", "book it"⟩]) = .ok ⟨"Your booking is confirmed."⟩ ∧
    envPostTrip.outputGuard "Your booking is confirmed." =
      .ok ⟨true, "confirms a booking without showing cost"⟩ ∧
    run_travel_agent envPostTrip [⟨"user", "book it"⟩] =
      .ok (.blockedOutput blockedOutputReason) :=
  ⟨rfl, rfl, rfl,
    (post_gate_suppression envPostTrip [⟨"user", "book it"⟩] "Your booking is confirmed."
      "relevant request" "confirms a booking without showing cost" rfl rfl rfl).1⟩

/-- C4: when neither gate triggers, the run ends as success and the
response field is exactly the responder's output string, passed through
unmodified. -/
theorem happy_path_passthrough (env : ModelEnv) (h : List Msg)
    (T rpre rpost : String)
    (hpre : env.inputGuard (promptOf h) = .ok ⟨false, rpre⟩)
    (hresp : env.responder (promptOf h) = .ok ⟨T⟩)
    (hpost : env.outputGuard T = .ok ⟨false, rpost⟩) :
    run_travel_agent env h = .ok (.success T) := by
  simp [run_travel_agent, run_travel_agentT, runnerRun, illegal_irrelevant,
    check_booking, Except.map, hpre, hresp, hpost]

/-- Witness for C4: the happy-path environment, with the spec's example
response text, on a concrete one-message history. -/
theorem happy_path_passthrough_witness :
    envFlights.inputGuard (promptOf [⟨"user", "flights to Seoul?"⟩]) =
      .ok ⟨false, "relevant request"⟩ ∧
    envFlights.responder (promptOf [⟨"user", "flights to Seoul?"⟩]) =
      .ok ⟨"Flights from Tokyo to Seoul start at $120."⟩ ∧
    envFlights.outputGuard "Flights from Tokyo to Seoul start at $120." =
      .ok ⟨false, "no violation"⟩ ∧
    run_travel_agent envFlights [⟨"user", "flights to Seoul?"⟩] =
      .ok (.success "Flights from Tokyo to Seoul start at $120.") :=
  ⟨rfl, rfl, rfl,
    happy_path_passthrough envFlights [⟨"user", "flights to Seoul?"⟩]
      "Flights from Tokyo to Seoul start at $120." "relevant request" "no violation"
      rfl rfl rfl⟩

/-- C7: a provider error in any of the three model calls — reached in
order: the input gate; the responder when the input gate did not trigger;
the output gate on the responder's reply — is not caught: the call
returns no outcome dictionary and the error reaches the caller. -/
theorem provider_error_propagates (env : ModelEnv) (h : List Msg)
    (e : ProviderError)
    (herr : env.inputGuard (promptOf h) = .error e ∨
      (∃ rpre, env.inputGuard (promptOf h) = .ok ⟨false, rpre⟩ ∧
        env.responder (promptOf h) = .error e) ∨
      (∃ rpre T, env.inputGuard (promptOf h) = .ok ⟨false, rpre⟩ ∧
        env.responder (promptOf h) = .ok ⟨T⟩ ∧ env.outputGuard T = .error e)) :
    run_travel_agent env h = .error e := by
  rcases herr with h1 | ⟨rpre, h1, h2⟩ | ⟨rpre, T, h1, h2, h3⟩
  · simp [run_travel_agent, run_travel_agentT, runnerRun, illegal_irrelevant, Except.map, h1]
  · simp [run_travel_agent, run_travel_agentT, runnerRun, illegal_irrelevant, Except.map, h1, h2]
  · simp [run_travel_agent, run_travel_agentT, runnerRun, illegal_irrelevant,
      check_booking, Except.map, h1, h2, h3]

/-- Witness for C7: a network failure in the input-gate model call
escapes `run_travel_agent`. -/
theorem provider_error_propagates_witness :
    envPreErr.inputGuard (promptOf [⟨"user", "hi"⟩]) = .error .networkFailure ∧
    run_travel_agent envPreErr [⟨"user", "hi"⟩] = .error .networkFailure :=
  ⟨rfl, provider_error_propagates envPreErr [⟨"user", "hi"⟩] .networkFailure (Or.inl rfl)⟩

/-- C6 counterexample: with an input-gate verdict whose rationale is
"asks for travel to a sanctioned destination", the returned reason is the
fixed sentence of src/main.py line 154, not the gate's rationale — the
claim that the reason carries the gate's own verdict rationale is false. -/
theorem blocked_reason_not_rationale_counterexample :
    envPreTrip.inputGuard (promptOf [⟨"user", "book me a trip"⟩]) =
      .ok ⟨true, "asks for travel to a sanctioned destination"⟩ ∧
    run_travel_agent envPreTrip [⟨"user", "book me a trip"⟩] =
      .ok (.blockedInput blockedInputReason) ∧
    blockedInputReason ≠ "asks for travel to a sanctioned destination" :=
  ⟨rfl, rfl, by decide⟩

/-- C6 amended: for every turn that `run_travel_agent` reports as blocked,
the reason field is the fixed generic sentence for that gate (lines 154
and 158 of src/main.py) — `"Illegal or irrelevant request."` for
blocked-input and `"Blocked for safety (medical/legal advice or missing
cost)."` for blocked-output — regardless of the gate's own reasoning,
which is discarded. -/
theorem blocked_reason_fixed (env : ModelEnv) (h : List Msg) (o : Outcome)
    (hrun : run_travel_agent env h = Except.ok o) :
    (∀ r, o = .blockedInput r → r = blockedInputReason) ∧
    (∀ r, o = .blockedOutput r → r = blockedOutputReason) := by
  rcases run_travel_agent_run_cases env h with ⟨out, -, hr⟩ | ⟨-, hr⟩ | ⟨-, hr⟩ | ⟨e, -, hr⟩
  · rw [hr] at hrun
    injection hrun with h0
    subst h0
    exact ⟨fun r hr0 => (nomatch hr0), fun r hr0 => (nomatch hr0)⟩
  · rw [hr] at hrun
    injection hrun with h0
    subst h0
    refine ⟨fun r hr0 => ?_, fun r hr0 => (nomatch hr0)⟩
    injection hr0 with h1
    exact h1.symm
  · rw [hr] at hrun
    injection hrun with h0
    subst h0
    refine ⟨fun r hr0 => (nomatch hr0), fun r hr0 => ?_⟩
    injection hr0 with h1
    exact h1.symm
  · rw [hr] at hrun
    cases hrun

/-- Witness for the amended C6 at a concrete blocked turn. -/
theorem blocked_reason_fixed_witness :
    run_travel_agent envPreTrip [⟨"user", "book me a trip"⟩] =
      Except.ok (.blockedInput blockedInputReason) ∧
    (∀ r, Outcome.blockedInput blockedInputReason = .blockedInput r →
      r = blockedInputReason) ∧
    (∀ r, Outcome.blockedInput blockedInputReason = .blockedOutput r →
      r = blockedOutputReason) :=
  ⟨rfl, blocked_reason_fixed envPreTrip [⟨"user", "book me a trip"⟩]
    (.blockedInput blockedInputReason) rfl⟩

/-- C8: a submitted message that passes the non-blank guard and whose
pipeline run returns one of the three outcomes grows the transcript by
exactly one user turn followed by exactly one agent turn (block notices
are appended as agent turns), with the existing turns left untouched as a
prefix. -/
theorem submit_appends_user_and_agent (env : ModelEnv) (messages : List Msg)
    (user_input : String) (o : Outcome)
    (hguard : pystrip user_input ≠ "")
    (hrun : run_travel_agent env (messages ++ [⟨"user", user_input⟩]) = .ok o) :
    submitStep env messages user_input =
      (messages ++ [⟨"user", user_input⟩, agentEntryFor o], none) ∧
    (agentEntryFor o).role = "agent" ∧ Msg.role ⟨"user", user_input⟩ = "user" := by
  refine ⟨?_, ?_, rfl⟩
  · simp [submitStep, submitStepT, hguard, hrun]
  · cases o <;> rfl

/-- Witness for C8: the happy-path environment on an empty transcript and
the message `"hi"`. -/
theorem submit_appends_user_and_agent_witness :
    pystrip "hi" ≠ "" ∧
    run_travel_agent envHappy [⟨"user", "hi"⟩] = .ok (.success "hello") ∧
    submitStep envHappy [] "hi" =
      ([⟨"user", "hi"⟩, agentEntryFor (.success "hello")], none) ∧
    (agentEntryFor (Outcome.success "hello")).role = "agent" ∧
    Msg.role ⟨"user", "hi"⟩ = "user" := by
  have hguard : pystrip "hi" ≠ "" := by decide
  have hrun : run_travel_agent envHappy ([] ++ [⟨"user", "hi"⟩]) =
      .ok (.success "hello") := rfl
  have hmain := submit_appends_user_and_agent envHappy [] "hi" (.success "hello") hguard hrun
  exact ⟨hguard, hrun, by simpa using hmain.1, hmain.2.1, hmain.2.2⟩

/-- The state component of the state-passing embedding is returned
unchanged: helper shared by the frame theorems. -/
lemma run_travel_agentS_snd (env : ModelEnv) (s : PipelineState) :
    (run_travel_agentS env s).2 = s := by
  unfold run_travel_agentS
  rcases hE : runnerRun env (promptOf s.chat_history) with ⟨res, c⟩
  rcases res with err | out
  · rcases err with _ | _ | e <;> simp [hE]
  · simp [hE]

/-- C9: one pipeline call neither mutates the chat-history transcript it
is given nor the `user_info` it passes as context (the state component
comes back unchanged, and the result agrees with the plain embedding);
consequently any number of turns leaves the state fixed. -/
theorem pipeline_preserves_state (env : ModelEnv) (s : PipelineState) :
    (run_travel_agentS env s).2 = s ∧
    (run_travel_agentS env s).1 = run_travel_agent env s.chat_history ∧
    ∀ envs : List ModelEnv, runTurnsS envs s = s := by
  refine ⟨run_travel_agentS_snd env s, ?_, ?_⟩
  · unfold run_travel_agentS run_travel_agent run_travel_agentT
    rcases hE : runnerRun env (promptOf s.chat_history) with ⟨res, c⟩
    rcases res with err | out
    · rcases err with _ | _ | e <;> simp [hE]
    · simp [hE]
  · intro envs
    induction envs with
    | nil => rfl
    | cons e es ih =>
      show runTurnsS es (run_travel_agentS e s).2 = s
      rw [run_travel_agentS_snd e s]
      exact ih

/-- C10: when the submitted text strips to the empty string, the guard at
src/main.py line 204 fails: the pipeline is never invoked (zero calls)
and the transcript is returned exactly as it was. -/
theorem empty_input_no_pipeline (env : ModelEnv) (messages : List Msg)
    (user_input : String) (hempty : pystrip user_input = "") :
    submitStepT env messages user_input = (messages, none, 0) := by
  simp [submitStepT, hempty]

/-- Witness for C10: a whitespace-only input leaves a concrete transcript
untouched with zero pipeline invocations. -/
theorem empty_input_no_pipeline_witness :
    pystrip "   " = "" ∧
    submitStepT envHappy [⟨"user", "earlier"⟩] "   " = ([⟨"user", "earlier"⟩], none, 0) :=
  ⟨by decide, empty_input_no_pipeline envHappy [⟨"user", "earlier"⟩] "   " (by decide)⟩

/-- Stripping trailing whitespace from a concatenation: if the suffix
strips away completely the prefix is right-stripped, otherwise the prefix
survives untouched. -/
lemma pyRStrip_append (p X : List Char) :
    pyRStrip (p ++ X) = if pyRStrip X = [] then pyRStrip p else p ++ pyRStrip X := by
  unfold pyRStrip
  rw [List.reverse_append, List.dropWhile_append]
  by_cases hX : X.reverse.dropWhile isPySpace = []
  · simp [hX]
  · simp [hX]

/-- Right-stripping a concatenation only depends on the right-strip of
the suffix. -/
lemma pyRStrip_append_congr (p X Y : List Char) (h : pyRStrip X = pyRStrip Y) :
    pyRStrip (p ++ X) = pyRStrip (p ++ Y) := by
  rw [pyRStrip_append, pyRStrip_append, h]

/-- Appending lines each followed by a newline and appending lines joined
by newlines differ only by trailing whitespace, so they right-strip to
the same characters. -/
lemma pyRStrip_linesConcat (ls : List String) :
    pyRStrip (linesConcat ls).data = pyRStrip (joinLines ls).data := by
  induction ls with
  | nil => rfl
  | cons l t ih =>
    cases t with
    | nil =>
      have h1 : (linesConcat [l]).data = l.data ++ ['\n'] := by
        have he : linesConcat [l] = (l ++ "\n") ++ linesConcat [] := by
          simp [linesConcat]
        rw [he, String.data_append, String.data_append]
        simp [linesConcat]
      have h2 : joinLines [l] = l := by simp [joinLines]
      rw [h1, h2, pyRStrip_append]
      have h3 : pyRStrip ['\n'] = [] := rfl
      rw [h3]
      simp
    | cons a t2 =>
      have hL : (linesConcat (l :: a :: t2)).data =
          (l.data ++ ['\n']) ++ (linesConcat (a :: t2)).data := by
        have he : linesConcat (l :: a :: t2) = (l ++ "\n") ++ linesConcat (a :: t2) := by
          simp [linesConcat]
        rw [he, String.data_append, String.data_append]
      have hJ : (joinLines (l :: a :: t2)).data =
          (l.data ++ ['\n']) ++ (joinLines (a :: t2)).data := by
        have he : joinLines (l :: a :: t2) = (l ++ "\n") ++ joinLines (a :: t2) := by
          simp [joinLines]
        rw [he, String.data_append, String.data_append]
      rw [hL, hJ]
      exact pyRStrip_append_congr _ _ _ ih

/-- The two serializations strip to the same string. -/
lemma pystrip_linesConcat (ls : List String) :
    pystrip (linesConcat ls) = pystrip (joinLines ls) := by
  unfold pystrip
  rw [pyRStrip_linesConcat]

/-- The serialization loop produces each line followed by a newline. -/
lemma buildConversation_foldl (h : List Msg) : ∀ acc : String,
    h.foldl (fun conversation msg => conversation ++ turnLine msg ++ "\n") acc
      = acc ++ linesConcat (h.map turnLine) := by
  induction h with
  | nil =>
    intro acc
    show acc = acc ++ linesConcat []
    simp [linesConcat]
  | cons m t ih =>
    intro acc
    have hc : linesConcat (turnLine m :: t.map turnLine)
        = (turnLine m ++ "\n") ++ linesConcat (t.map turnLine) := by
      simp [linesConcat]
    show t.foldl _ (acc ++ turnLine m ++ "\n")
        = acc ++ linesConcat (turnLine m :: t.map turnLine)
    rw [ih (acc ++ turnLine m ++ "\n"), hc]
    simp [String.append_assoc]

/-- The serialized conversation is the concatenation of the per-turn
lines, each followed by a newline. -/
lemma buildConversation_eq (h : List Msg) :
    buildConversation h = linesConcat (h.map turnLine) := by
  have hx := buildConversation_foldl h ""
  simpa [buildConversation] using hx

/-- C5 counterexample: on the one-turn transcript whose content ends in a
space, the prompt the code builds differs from the claim's
joined-with-trailing-newline-trimmed serialization, because Python's
`strip()` also removes the last content's own trailing space. -/
theorem prompt_strip_counterexample :
    promptOf [⟨"user", "a "⟩] = "User: a" ∧
    specPromptC5 [⟨"user", "a "⟩] = "User: a " ∧
    promptOf [⟨"user", "a "⟩] ≠ specPromptC5 [⟨"user", "a "⟩] :=
  ⟨rfl, rfl, by decide⟩

/-- C5 amended: for every transcript, the prompt equals the per-turn
`"User: <content>"`/`"Agent: <content>"` lines joined by newlines and
then stripped of leading and trailing whitespace (Python `str.strip()`,
which trims the trailing newline and with it any trailing whitespace of
the final content); in particular, on the claim's example — whose
contents carry no edge whitespace — it equals
`"User: a\nAgent: b\nUser: c"` exactly. -/
theorem prompt_eq_stripped_joined_lines :
    (∀ h : List Msg, promptOf h = pystrip (specPromptC5 h)) ∧
    promptOf [⟨"user", "a"⟩, ⟨"agent", "b"⟩, ⟨"user", "c"⟩]
      = "User: a\nAgent: b\nUser: c" := by
  constructor
  · intro h
    show pystrip (buildConversation h) = pystrip (specPromptC5 h)
    rw [buildConversation_eq]
    exact pystrip_linesConcat (h.map turnLine)
  · rfl

end TravelAgent
